import Mathlib

/-!
Shallow embedding of `src/app.py`, the iNaturalist-GeoJSON to Wikimedia
Commons `.map` converter.  Python JSON values are modelled by `Json`
(numbers restricted to integers, which suffices for every property below);
Python `None` is `Json.null`.  Operations that may raise are modelled with
`Option`/`Except`, where `none`/`.error` marks an exception.  The three
network collaborators (the Wikidata statement lookup, the S3 geometry store
and the iNaturalist taxa API) are parameters of the pipeline functions,
given as outcome values describing the collaborator's response.
-/

inductive Json : Type where
  | null : Json
  | bool : Bool → Json
  | num : Int → Json
  | str : String → Json
  | arr : List Json → Json
  | obj : List (String × Json) → Json

/-- First-match association-list lookup, the model of Python dict lookup
(JSON-parsed dicts have unique keys, so first-match agrees with dicts). -/
def jlookup : List (String × Json) → String → Option Json
  | [], _ => none
  | (k, v) :: rest, key => if k = key then some v else jlookup rest key

/-- Python truthiness of a JSON value. -/
def truthy : Json → Bool
  | .null => false
  | .bool b => b
  | .num n => n != 0
  | .str s => !s.isEmpty
  | .arr xs => !xs.isEmpty
  | .obj kvs => !kvs.isEmpty

/-- Python `v.get(key, dflt)`: `none` models the `AttributeError` raised
when `v` is not a dict. -/
def pyGet (v : Json) (key : String) (dflt : Json) : Option Json :=
  match v with
  | .obj kvs => some ((jlookup kvs key).getD dflt)
  | _ => none

/-- Python `v[key]` for a string key: `none` models the exception raised
when `v` is not a dict (`TypeError`) or lacks the key (`KeyError`). -/
def pyKey (v : Json) (key : String) : Option Json :=
  match v with
  | .obj kvs => jlookup kvs key
  | _ => none

/-- Python `v[0]`; the error carries the exception's name. -/
def pySub0 : Json → Except String Json
  | .arr (x :: _) => .ok x
  | .arr [] => .error "IndexError"
  | .str s =>
      match s.toList with
      | c :: _ => .ok (.str (String.mk [c]))
      | [] => .error "IndexError"
  | .obj _ => .error "KeyError"
  | _ => .error "TypeError"

/-- Python `v[0]` with the exception collapsed to `none`. -/
def idx0? (v : Json) : Option Json := (pySub0 v).toOption

/-- Python `a, b = v`: destructuring assignment from an iterable of exactly
two elements.  It succeeds on two-element lists, two-character strings and
two-key dicts (iterating a dict yields its keys), matching CPython. -/
def unpack2 : Json → Option (Json × Json)
  | .arr [a, b] => some (a, b)
  | .str s =>
      match s.toList with
      | [c, d] => some (.str (String.mk [c]), .str (String.mk [d]))
      | _ => none
  | .obj [(k1, _), (k2, _)] => some (.str k1, .str k2)
  | _ => none

/-- A single-quote character, used by the Python `repr` of strings. -/
def pyQuote : String := toString (Char.ofNat 39)

/-- Python `repr` of a JSON value (string escaping inside `repr` of `str`
values is elided; no property below depends on it). -/
def pyRepr : Json → String
  | .null => "None"
  | .bool true => "True"
  | .bool false => "False"
  | .num n => toString n
  | .str s => pyQuote ++ s ++ pyQuote
  | .arr xs => "[" ++ String.intercalate ", " (xs.attach.map (fun x => pyRepr x.1)) ++ "]"
  | .obj kvs =>
      "\x7b" ++
        String.intercalate ", "
          (kvs.attach.map (fun kv => pyQuote ++ kv.1.1 ++ pyQuote ++ ": " ++ pyRepr kv.1.2)) ++
      "\x7d"
decreasing_by
  · have h := List.sizeOf_lt_of_mem x.2
    simp only [Json.arr.sizeOf_spec]
    omega
  · rcases kv with ⟨⟨k, v⟩, hm⟩
    have h := List.sizeOf_lt_of_mem hm
    simp only [Prod.mk.sizeOf_spec] at h
    simp only [Json.obj.sizeOf_spec]
    omega

/-- Python `str` of a JSON value (as used by f-string interpolation). -/
def pyStr : Json → String
  | .str s => s
  | v => pyRepr v

/-- Coordinate path `geometry["coordinates"][0][0]` used by the Polygon
branch of `compute_center` (`none` models a raised exception). -/
def poly_path (geometry : Json) : Option Json :=
  ((pyKey geometry "coordinates").bind idx0?).bind idx0?

/-- Coordinate path `geometry["coordinates"][0][0][0]` used by the
MultiPolygon branch of `compute_center`. -/
def mp_path (geometry : Json) : Option Json :=
  (((pyKey geometry "coordinates").bind idx0?).bind idx0?).bind idx0?

/-- The Polygon branch's `lon, lat = geometry["coordinates"][0][0]`. -/
def poly_point (geometry : Json) : Option (Json × Json) :=
  (poly_path geometry).bind unpack2

/-- The MultiPolygon branch's `lon, lat = geometry["coordinates"][0][0][0]`. -/
def mp_point (geometry : Json) : Option (Json × Json) :=
  (mp_path geometry).bind unpack2

/-- Model of `compute_center` (src/app.py lines 7-22).  The whole body is
wrapped in `try: ... except Exception: pass`, so every raised exception
falls through to the default `0.0, 0.0`; Python's float `0.0` is `.num 0`. -/
def compute_center (geometry : Json) : Json × Json :=
  match pyKey geometry "type" with
  | some (.str "MultiPolygon") =>
      match mp_point geometry with
      | some (lon, lat) => (lat, lon)
      | none => (.num 0, .num 0)
  | some (.str "Polygon") =>
      match poly_point geometry with
      | some (lon, lat) => (lat, lon)
      | none => (.num 0, .num 0)
  | _ => (.num 0, .num 0)

/-- Outcome of the Feature/FeatureCollection dispatch (src/app.py lines
185-190 and the character-identical lines 253-258): `ok` carries the value
bound to the Python variable `features`; `unsupported` is the 400
rejection; `attrError` is the uncaught `AttributeError` raised by `.get`
when the parsed document is not a dict. -/
inductive NormOut : Type where
  | ok : Json → NormOut
  | unsupported : NormOut
  | attrError : NormOut

/-- Model of the Feature/FeatureCollection dispatch shared verbatim by the
fetch path (lines 185-190) and the upload path (lines 253-258). -/
def normalize_features (doc : Json) : NormOut :=
  match doc with
  | .obj kvs =>
      match jlookup kvs "type" with
      | some (.str "Feature") => .ok (.arr [doc])
      | some (.str "FeatureCollection") => .ok ((jlookup kvs "features").getD (.arr []))
      | _ => .unsupported
  | _ => .attrError

/-- Response of the iNaturalist taxa API collaborator
(`requests.get(f"https://api.inaturalist.org/v1/taxa/:id")`): the call
raised, returned a non-ok status, or returned a body parsed as JSON
(a parse failure is a raise, hence `raises`). -/
inductive TaxOutcome : Type where
  | raises : TaxOutcome
  | notOk : TaxOutcome
  | body : Json → TaxOutcome

/-- Value of the Python variable `species_name` right after the
`try/except` around the taxa-API call (src/app.py lines 199-207, identical
at lines 268-276): `.null` models `None`.  Every exception inside the block
is swallowed by `except Exception`. -/
def api_species_value : TaxOutcome → Json
  | .raises => .null
  | .notOk => .null
  | .body data =>
      match data with
      | .obj kvs =>
          let results := (jlookup kvs "results").getD .null
          if truthy results then
            match idx0? results with
            | some first =>
                match first with
                | .obj fk => (jlookup fk "name").getD .null
                | _ => .null
            | none => .null
          else .null
      | _ => .null

/-- Model of the fallback assignment guarded by `if not species_name:`,
which re-reads the first feature's properties dict and takes its `name`
entry with default `"Unknown"`
(src/app.py lines 208-209 and 277-278); `none` models the uncaught
`AttributeError` raised when `first_feature` or its `properties` value is
not a dict. -/
def resolve_species (api_name : Json) (first_feature : Json) : Option Json :=
  if truthy api_name then some api_name
  else (pyGet first_feature "properties" (.obj [])).bind
    (fun props => pyGet props "name" (.str "Unknown"))

/-- The output artifact: the dict literal built at src/app.py lines 214-230
(fetch) and 283-299 (upload).  The four description entries and the sources
line are the rendered f-strings; `data_type`/`data_features` are the two
entries of the nested `data` dict. -/
structure WikimediaMap : Type where
  license : String
  desc_en : String
  desc_de : String
  desc_ja : String
  desc_zh : String
  sources : String
  zoom : Nat
  latitude : Json
  longitude : Json
  data_type : String
  data_features : Json

/-- The `sources` f-string with the taxon id interpolated (src/app.py line
222 and, with the fallback already rendered, line 291). -/
def sources_string (tid : String) : String :=
  "https://www.inaturalist.org/pages/range_maps, https://www.inaturalist.org/geo_model/" ++
    tid ++ "/explain"

/-- The Commons submission link built from the space-underscored species
name (src/app.py lines 232-234 and 301-303). -/
def commons_link (safe_species : String) : String :=
  "https://commons.wikimedia.org/w/index.php?title=Data:" ++ safe_species ++
    "_iNat_2025.map" ++ "&action=submit"

/-- The dict literal assigned to `wikimedia_map`, for a species name that
is a Python `str` and an already-rendered taxon id. -/
def build_doc (species : String) (tid : String) (lat lon : Json) (features : Json) :
    WikimediaMap :=
  { license := "CC-BY-4.0+"
    desc_en := "Distribution map of " ++ species
    desc_de := "Verbreitungskarte von " ++ species
    desc_ja := species ++ " の分布図"
    desc_zh := species ++ " 分布图"
    sources := sources_string tid
    zoom := 5
    latitude := lat
    longitude := lon
    data_type := "FeatureCollection"
    data_features := features }

/-- Result of a request handler: a rendered output page (the document plus
the Commons submission link), a `jsonify` 400 error response with its
message, or an uncaught Python exception (Flask would turn it into a 500
page) carrying the exception's name. -/
inductive PipeOut : Type where
  | page : WikimediaMap → String → PipeOut
  | err : String → PipeOut
  | exception : String → PipeOut

/-- Document construction plus the Commons link (src/app.py lines 214-236
and 283-305).  In the source the dict is built first and
`species_name.replace(" ", "_")` runs afterwards; when `species_name` is
not a `str` the `replace` raises `AttributeError` before the response is
rendered, so the locally built dict is unobservable and the two steps are
fused here: a page is produced exactly when `species_name` is a `str`. -/
def finish (species_name : Json) (tid : String) (lat lon : Json) (features : Json) :
    PipeOut :=
  match species_name with
  | .str s => .page (build_doc s tid lat lon features) (commons_link (s.replace " " "_"))
  | _ => .exception "AttributeError"

/-- Response of the Wikidata statement-lookup collaborator
(`get_statement_values(qid, "P3151")` from wdcuration): either the call
raised, or it returned the list of statement values. -/
inductive WdOutcome : Type where
  | raises : String → WdOutcome
  | vals : List String → WdOutcome

/-- Model of `get_inat_id_from_wikidata` (src/app.py lines 25-27): takes
`id[0]` of the collaborator's value list, so an empty list raises an
uncaught `IndexError`, and a collaborator failure propagates as well. -/
def get_inat_id_from_wikidata (wd : String → WdOutcome) (qid : String) :
    Except String String :=
  match wd qid with
  | .raises e => .error e
  | .vals [] => .error "IndexError"
  | .vals (x :: _) => .ok x

/-- Response of the S3 geometry store inside `fetch_geojson`: the
`requests.get` call raised (not caught there), the status was non-ok, the
body failed to parse as JSON, or the body parsed to a JSON value. -/
inductive GeomOutcome : Type where
  | reqRaises : String → GeomOutcome
  | notOk : GeomOutcome
  | badBody : GeomOutcome
  | parsed : Json → GeomOutcome

/-- Model of `fetch_geojson` (src/app.py lines 29-38).  `r.ok` false and an
unparseable body both return Python `None`, modelled as `.null` (a parsed
JSON `null` is also `.null`: both are falsy and behave identically in the
sole consumer at line 181). -/
def fetch_geojson : GeomOutcome → Except String Json
  | .reqRaises e => .error e
  | .notOk => .ok .null
  | .badBody => .ok .null
  | .parsed j => .ok j

/-- The metadata/centroid/species block of the fetch handler for a
non-empty-or-not `features` value, followed by document construction
(src/app.py lines 192-236); `taxon_id` there is always the resolved
`inat_id` string. -/
def fetch_with_features (tax : TaxOutcome) (inat_id : String) (features : Json) :
    PipeOut :=
  if truthy features then
    match pySub0 features with
    | .error e => .exception e
    | .ok first_feature =>
        match pyGet first_feature "geometry" (.obj []) with
        | none => .exception "AttributeError"
        | some geometry =>
            match resolve_species (api_species_value tax) first_feature with
            | none => .exception "AttributeError"
            | some species_name =>
                finish species_name inat_id
                  (compute_center geometry).1 (compute_center geometry).2 features
  else finish (.str "Unknown") inat_id (.num 0) (.num 0) features

/-- The fetch handler from the geometry fetch on (src/app.py lines
180-236), given the already-resolved iNaturalist id. -/
def fetch_after_resolve (geom : GeomOutcome) (tax : TaxOutcome) (inat_id : String) :
    PipeOut :=
  match fetch_geojson geom with
  | .error e => .exception e
  | .ok geojson_data =>
      if truthy geojson_data = false then
        .err "Failed to fetch or parse GeoJSON data for the given taxon id"
      else
        match normalize_features geojson_data with
        | .attrError => .exception "AttributeError"
        | .unsupported => .err "GeoJSON data is not a Feature or FeatureCollection"
        | .ok features => fetch_with_features tax inat_id features

/-- Python `s.strip()`: drops leading and trailing whitespace. -/
def py_strip (s : String) : String :=
  String.mk (((s.toList.dropWhile Char.isWhitespace).reverse.dropWhile
    Char.isWhitespace).reverse)

/-- Python `s.upper()` (ASCII case mapping, which covers identifiers). -/
def py_upper (s : String) : String := String.mk (s.toList.map Char.toUpper)

/-- Python `s.startswith(pre)`. -/
def py_startswith (s pre : String) : Bool := pre.toList.isPrefixOf s.toList

/-- Model of the `/fetch` handler `fetch_by_id` (src/app.py lines 166-236).
`raw` is the form field `identifier` (missing field = `""`); `wd` maps the
QID actually passed to `get_statement_values` to that collaborator's
response. -/
def fetch_by_id (wd : String → WdOutcome) (geom : GeomOutcome) (tax : TaxOutcome)
    (raw : String) : PipeOut :=
  let identifier := py_strip raw
  if identifier = "" then .err "No identifier provided"
  else if py_startswith (py_upper identifier) "Q" then
    match get_inat_id_from_wikidata wd (py_upper identifier) with
    | .error e => .exception e
    | .ok inat_id =>
        if inat_id = "" then
          .err "Could not retrieve an iNaturalist taxon id from the Wikidata QID"
        else fetch_after_resolve geom tax inat_id
  else fetch_after_resolve geom tax identifier

/-- The taxon id as interpolated into the upload path's `sources` f-string:
`taxon_id if taxon_id else "18808"` (src/app.py line 291). -/
def upload_taxon_render (taxon_id : Json) : String :=
  if truthy taxon_id then pyStr taxon_id else "18808"

/-- The metadata/centroid/species block of the upload handler plus document
construction (src/app.py lines 260-305): the taxon id comes from the first
feature's `properties.taxon_id` and the taxa API is consulted only when it
is truthy. -/
def upload_with_features (tax : TaxOutcome) (features : Json) : PipeOut :=
  if truthy features then
    match pySub0 features with
    | .error e => .exception e
    | .ok first_feature =>
        match pyGet first_feature "geometry" (.obj []) with
        | none => .exception "AttributeError"
        | some geometry =>
            match (pyGet first_feature "properties" (.obj [])).bind
                (fun props => pyGet props "taxon_id" .null) with
            | none => .exception "AttributeError"
            | some taxon_id =>
                match resolve_species
                    (if truthy taxon_id then api_species_value tax else .null)
                    first_feature with
                | none => .exception "AttributeError"
                | some species_name =>
                    finish species_name (upload_taxon_render taxon_id)
                      (compute_center geometry).1 (compute_center geometry).2 features
  else finish (.str "Unknown") (upload_taxon_render .null) (.num 0) (.num 0) features

/-- Request state of the `/upload` handler before the type dispatch
(src/app.py lines 240-251): no file part, empty filename, a read / decode /
`json.loads` failure with its message, or the parsed JSON document. -/
inductive UploadInput : Type where
  | noFilePart : UploadInput
  | emptyFilename : UploadInput
  | badContent : String → UploadInput
  | parsed : Json → UploadInput

/-- Model of the `/upload` handler `upload_file` (src/app.py lines
238-305). -/
def upload_file (tax : TaxOutcome) (inp : UploadInput) : PipeOut :=
  match inp with
  | .noFilePart => .err "No file part in the request"
  | .emptyFilename => .err "No file selected"
  | .badContent e => .err ("Failed to read/parse file: " ++ e)
  | .parsed input_data =>
      match normalize_features input_data with
      | .attrError => .exception "AttributeError"
      | .unsupported => .err "Input file must be a GeoJSON Feature or FeatureCollection"
      | .ok features => upload_with_features tax features

/-- A key found by `jlookup` means the association list is non-empty, so
the corresponding dict is truthy. -/
theorem truthy_obj_of_jlookup {kvs : List (String × Json)} {k : String} {v : Json}
    (h : jlookup kvs k = some v) : truthy (Json.obj kvs) = true := by
  cases kvs with
  | nil => simp [jlookup] at h
  | cons kv rest => simp [truthy]

/-- Inversion for `finish`: a rendered page pins the species name to a
string and the document to `build_doc` on the same arguments. -/
theorem finish_page {sn : Json} {tid : String} {lat lon features : Json}
    {doc : WikimediaMap} {link : String}
    (h : finish sn tid lat lon features = .page doc link) :
    ∃ s : String, sn = .str s ∧ doc = build_doc s tid lat lon features := by
  cases sn <;> simp [finish] at h
  case str s => exact ⟨s, rfl, h.1.symm⟩

/-- Inversion for `fetch_with_features`: every page it renders is
`build_doc` applied to the resolved id and the untouched features value. -/
theorem fwf_page {tax : TaxOutcome} {tid : String} {features : Json}
    {doc : WikimediaMap} {link : String}
    (h : fetch_with_features tax tid features = .page doc link) :
    ∃ s lat lon, doc = build_doc s tid lat lon features := by
  unfold fetch_with_features at h
  split at h
  · split at h
    · exact PipeOut.noConfusion h
    · split at h
      · exact PipeOut.noConfusion h
      · split at h
        · exact PipeOut.noConfusion h
        · obtain ⟨s, _, hd⟩ := finish_page h
          exact ⟨s, _, _, hd⟩
  · obtain ⟨s, _, hd⟩ := finish_page h
    exact ⟨s, _, _, hd⟩

/-- Inversion for `upload_with_features`: every page it renders is
`build_doc` applied to a rendered taxon id and the untouched features. -/
theorem uwf_page {tax : TaxOutcome} {features : Json}
    {doc : WikimediaMap} {link : String}
    (h : upload_with_features tax features = .page doc link) :
    ∃ s t lat lon, doc = build_doc s (upload_taxon_render t) lat lon features := by
  unfold upload_with_features at h
  split at h
  · split at h
    · exact PipeOut.noConfusion h
    · split at h
      · exact PipeOut.noConfusion h
      · split at h
        · exact PipeOut.noConfusion h
        · split at h
          · exact PipeOut.noConfusion h
          · obtain ⟨s, _, hd⟩ := finish_page h
            exact ⟨s, _, _, _, hd⟩
  · obtain ⟨s, _, hd⟩ := finish_page h
    exact ⟨s, _, _, _, hd⟩

/-- Inversion for `fetch_after_resolve`: a page presupposes a truthy parsed
geometry document that the shared type dispatch normalized. -/
theorem far_page {geom : GeomOutcome} {tax : TaxOutcome} {tid : String}
    {doc : WikimediaMap} {link : String}
    (h : fetch_after_resolve geom tax tid = .page doc link) :
    ∃ gj, fetch_geojson geom = .ok gj ∧ truthy gj = true ∧
      ∃ fs, normalize_features gj = .ok fs ∧
        fetch_with_features tax tid fs = .page doc link := by
  unfold fetch_after_resolve at h
  rcases hg : fetch_geojson geom with e | gd <;> rw [hg] at h
  · exact PipeOut.noConfusion h
  · simp only [] at h
    by_cases ht : truthy gd = false
    · rw [if_pos ht] at h; exact PipeOut.noConfusion h
    · rw [if_neg ht] at h
      rcases hn : normalize_features gd with fs | _ | _ <;> rw [hn] at h
      · exact ⟨gd, rfl, by simpa using ht, fs, hn, h⟩
      · exact PipeOut.noConfusion h
      · exact PipeOut.noConfusion h

/-- Inversion for `fetch_by_id`: a page goes through `fetch_after_resolve`
for some resolved id. -/
theorem fbi_page {wd : String → WdOutcome} {geom : GeomOutcome} {tax : TaxOutcome}
    {raw : String} {doc : WikimediaMap} {link : String}
    (h : fetch_by_id wd geom tax raw = .page doc link) :
    ∃ tid, fetch_after_resolve geom tax tid = .page doc link := by
  unfold fetch_by_id at h
  by_cases he : py_strip raw = ""
  · rw [if_pos he] at h; exact PipeOut.noConfusion h
  · rw [if_neg he] at h
    by_cases hq : py_startswith (py_upper (py_strip raw)) "Q"
    · rw [if_pos hq] at h
      rcases hr : get_inat_id_from_wikidata wd (py_upper (py_strip raw)) with e | tid <;>
        rw [hr] at h
      · exact PipeOut.noConfusion h
      · simp only [] at h
        by_cases hz : tid = ""
        · rw [if_pos hz] at h; exact PipeOut.noConfusion h
        · rw [if_neg hz] at h; exact ⟨tid, h⟩
    · rw [if_neg hq] at h; exact ⟨py_strip raw, h⟩

/-- Inversion for `upload_file`: a page presupposes a parsed document that
the shared type dispatch normalized. -/
theorem ufl_page {tax : TaxOutcome} {inp : UploadInput}
    {doc : WikimediaMap} {link : String}
    (h : upload_file tax inp = .page doc link) :
    ∃ j, inp = .parsed j ∧ ∃ fs, normalize_features j = .ok fs ∧
      upload_with_features tax fs = .page doc link := by
  cases inp <;> simp only [upload_file] at h
  case noFilePart => exact PipeOut.noConfusion h
  case emptyFilename => exact PipeOut.noConfusion h
  case badContent e => exact PipeOut.noConfusion h
  case parsed j =>
    rcases hn : normalize_features j with fs | _ | _ <;> rw [hn] at h
    · exact ⟨j, rfl, fs, hn, h⟩
    · exact PipeOut.noConfusion h
    · exact PipeOut.noConfusion h

/-- The taxa-API outcome influences `fetch_with_features` only through
`api_species_value`. -/
theorem fwf_tax_cong {t t' : TaxOutcome} {tid : String} {fs : Json}
    (h : api_species_value t = api_species_value t') :
    fetch_with_features t tid fs = fetch_with_features t' tid fs := by
  unfold fetch_with_features
  rw [h]

/-- The taxa-API outcome influences `upload_with_features` only through
`api_species_value`. -/
theorem uwf_tax_cong {t t' : TaxOutcome} {fs : Json}
    (h : api_species_value t = api_species_value t') :
    upload_with_features t fs = upload_with_features t' fs := by
  unfold upload_with_features
  rw [h]

/-- Lifting `fwf_tax_cong` through `fetch_after_resolve`. -/
theorem far_tax_cong {t t' : TaxOutcome} {geom : GeomOutcome} {tid : String}
    (h : api_species_value t = api_species_value t') :
    fetch_after_resolve geom t tid = fetch_after_resolve geom t' tid := by
  unfold fetch_after_resolve
  rcases hg : fetch_geojson geom with e | gd
  · rfl
  · simp only []
    by_cases ht : truthy gd = false
    · rw [if_pos ht, if_pos ht]
    · rw [if_neg ht, if_neg ht]
      rcases hn : normalize_features gd with fs | _ | _
      · exact fwf_tax_cong h
      · rfl
      · rfl

/-- Lifting `fwf_tax_cong` through the whole fetch handler. -/
theorem fbi_tax_cong {t t' : TaxOutcome} {wd : String → WdOutcome}
    {geom : GeomOutcome} {raw : String}
    (h : api_species_value t = api_species_value t') :
    fetch_by_id wd geom t raw = fetch_by_id wd geom t' raw := by
  unfold fetch_by_id
  by_cases he : py_strip raw = ""
  · rw [if_pos he, if_pos he]
  · rw [if_neg he, if_neg he]
    by_cases hq : py_startswith (py_upper (py_strip raw)) "Q"
    · rw [if_pos hq, if_pos hq]
      rcases hr : get_inat_id_from_wikidata wd (py_upper (py_strip raw)) with e | tid
      · rfl
      · simp only []
        by_cases hz : tid = ""
        · rw [if_pos hz, if_pos hz]
        · rw [if_neg hz, if_neg hz]
          exact far_tax_cong h
    · rw [if_neg hq, if_neg hq]
      exact far_tax_cong h

/-- Lifting `uwf_tax_cong` through the whole upload handler. -/
theorem ufl_tax_cong {t t' : TaxOutcome} {inp : UploadInput}
    (h : api_species_value t = api_species_value t') :
    upload_file t inp = upload_file t' inp := by
  cases inp <;> simp only [upload_file]
  case parsed j =>
    rcases hn : normalize_features j with fs | _ | _
    · exact uwf_tax_cong h
    · rfl
    · rfl

/-- A geometry-store body parsed to a falsy JSON value makes
`fetch_after_resolve` fail with the fetch error, before the type dispatch. -/
theorem far_falsy {j : Json} {tax : TaxOutcome} {tid : String}
    (h : truthy j = false) :
    fetch_after_resolve (.parsed j) tax tid =
      .err "Failed to fetch or parse GeoJSON data for the given taxon id" := by
  unfold fetch_after_resolve fetch_geojson
  simp [h]

/-- Two geometry-store outcomes that `fetch_after_resolve` cannot tell
apart lead the whole fetch handler to the same response. -/
theorem fbi_geom_cong {g1 g2 : GeomOutcome} {wd : String → WdOutcome}
    {tax : TaxOutcome} {raw : String}
    (h : ∀ tid, fetch_after_resolve g1 tax tid = fetch_after_resolve g2 tax tid) :
    fetch_by_id wd g1 tax raw = fetch_by_id wd g2 tax raw := by
  unfold fetch_by_id
  by_cases he : py_strip raw = ""
  · rw [if_pos he, if_pos he]
  · rw [if_neg he, if_neg he]
    by_cases hq : py_startswith (py_upper (py_strip raw)) "Q"
    · rw [if_pos hq, if_pos hq]
      rcases hr : get_inat_id_from_wikidata wd (py_upper (py_strip raw)) with e | tid
      · rfl
      · simp only []
        by_cases hz : tid = ""
        · rw [if_pos hz, if_pos hz]
        · rw [if_neg hz, if_neg hz]
          exact h tid
    · rw [if_neg hq, if_neg hq]
      exact h (py_strip raw)

/-- Claim C1, code-bug evidence: for the QID identifier "Q999999", when the
identifier-lookup collaborator returns an empty sequence of statement
values, the fetch handler raises an uncaught IndexError (from `id[0]` in
`get_inat_id_from_wikidata`) instead of producing the not-found error
response of the handler's own `if not inat_id` branch; when the
collaborator itself fails, that exception propagates uncaught as well.  So
the pipeline does not return the claimed error result in either case. -/
theorem C1_empty_lookup_raises_uncaught :
    fetch_by_id (fun _ => WdOutcome.vals []) GeomOutcome.notOk TaxOutcome.notOk
        "Q999999" = PipeOut.exception "IndexError" ∧
    PipeOut.exception "IndexError" ≠
      PipeOut.err "Could not retrieve an iNaturalist taxon id from the Wikidata QID" ∧
    fetch_by_id (fun _ => WdOutcome.raises "ConnectionError") GeomOutcome.notOk
        TaxOutcome.notOk "Q999999" = PipeOut.exception "ConnectionError" :=
  ⟨rfl, by simp, rfl⟩

/-- Claim C2: for a geometry of kind Polygon whose coordinate path [0][0]
holds the pair (lon, lat), `compute_center` returns exactly (lat, lon), and
for kind MultiPolygon the same at path [0][0][0]: the first vertex with the
coordinate order swapped. -/
theorem C2_center_first_vertex_swapped (g lon lat : Json) :
    (pyKey g "type" = some (.str "Polygon") →
      poly_path g = some (.arr [lon, lat]) →
      compute_center g = (lat, lon)) ∧
    (pyKey g "type" = some (.str "MultiPolygon") →
      mp_path g = some (.arr [lon, lat]) →
      compute_center g = (lat, lon)) := by
  constructor <;> intro h1 h2 <;> unfold compute_center <;> rw [h1]
  · show (match poly_point g with
      | some (lon, lat) => (lat, lon)
      | none => (.num 0, .num 0)) = (lat, lon)
    simp [poly_point, h2, unpack2]
  · show (match mp_point g with
      | some (lon, lat) => (lat, lon)
      | none => (.num 0, .num 0)) = (lat, lon)
    simp [mp_point, h2, unpack2]

/-- Claim C2 witness at concrete Polygon and MultiPolygon geometries. -/
theorem C2_witness :
    compute_center (.obj [("type", .str "Polygon"),
        ("coordinates", .arr [.arr [.arr [.num 1, .num 2], .arr [.num 9, .num 9]]])])
      = (.num 2, .num 1) ∧
    compute_center (.obj [("type", .str "MultiPolygon"),
        ("coordinates", .arr [.arr [.arr [.arr [.num 3, .num 4]]]])])
      = (.num 4, .num 3) :=
  ⟨(C2_center_first_vertex_swapped _ (.num 1) (.num 2)).1 rfl rfl,
   (C2_center_first_vertex_swapped _ (.num 3) (.num 4)).2 rfl rfl⟩

/-- Claim C3 counterexample: a malformed Polygon whose coordinates are
nested one level too deep (MultiPolygon depth) does NOT collapse to
(0.0, 0.0): the two-element ring at the point position destructures, and
`compute_center` returns the swapped pair of whole points. -/
theorem C3_counterexample_malformed_nesting :
    compute_center (.obj [("type", .str "Polygon"),
        ("coordinates", .arr [.arr [.arr [.arr [.num 1, .num 2], .arr [.num 3, .num 4]]]])])
      = (.arr [.num 3, .num 4], .arr [.num 1, .num 2]) ∧
    (Json.arr [.num 3, .num 4], Json.arr [.num 1, .num 2]) ≠
      ((Json.num 0 : Json), (Json.num 0 : Json)) :=
  ⟨rfl, by simp⟩

/-- Claim C3 as amended: `compute_center` is total (never raises), and it
returns (0.0, 0.0) whenever the kind is not Polygon or MultiPolygon (or
the `type` access raises), and whenever the branch's coordinate-path
extraction or two-element destructuring fails.  (A malformed geometry whose
point position nevertheless destructures into two values returns those
values swapped instead of the default.) -/
theorem C3_amended_default_on_failure (g : Json) :
    (pyKey g "type" ≠ some (.str "Polygon") →
      pyKey g "type" ≠ some (.str "MultiPolygon") →
      compute_center g = (.num 0, .num 0)) ∧
    (pyKey g "type" = some (.str "Polygon") → poly_point g = none →
      compute_center g = (.num 0, .num 0)) ∧
    (pyKey g "type" = some (.str "MultiPolygon") → mp_point g = none →
      compute_center g = (.num 0, .num 0)) := by
  refine ⟨?_, ?_, ?_⟩ <;> intro h1 h2 <;> unfold compute_center
  · split
    · next heq => exact absurd heq h2
    · next heq => exact absurd heq h1
    · rfl
  · rw [h1]
    show (match poly_point g with
      | some (lon, lat) => (lat, lon)
      | none => (.num 0, .num 0)) = (.num 0, .num 0)
    rw [h2]
  · rw [h1]
    show (match mp_point g with
      | some (lon, lat) => (lat, lon)
      | none => (.num 0, .num 0)) = (.num 0, .num 0)
    rw [h2]

/-- Claim C3 witness: the default at a non-geometry value, at a Polygon
with missing coordinates, and at a MultiPolygon with too-shallow
coordinates. -/
theorem C3_witness :
    compute_center (.str "x") = (.num 0, .num 0) ∧
    compute_center (.obj [("type", .str "Polygon")]) = (.num 0, .num 0) ∧
    compute_center (.obj [("type", .str "MultiPolygon"),
        ("coordinates", .arr [.arr [.num 5, .num 6]])]) = (.num 0, .num 0) :=
  ⟨(C3_amended_default_on_failure _).1 (by simp [pyKey]) (by simp [pyKey]),
   (C3_amended_default_on_failure _).2.1 rfl rfl,
   (C3_amended_default_on_failure _).2.2 rfl rfl⟩

/-- Claim C4 counterexample: a parsed JSON document that is not a dict
(here the non-empty array `[1]`, which passes every surrounding truthiness
check) makes the type dispatch raise an uncaught AttributeError (`.get` on
a list) instead of failing with the unsupported-type error response. -/
theorem C4_counterexample_nondict_document :
    upload_file TaxOutcome.notOk (UploadInput.parsed (.arr [.num 1]))
      = PipeOut.exception "AttributeError" ∧
    normalize_features (.arr [.num 1]) = NormOut.attrError ∧
    PipeOut.exception "AttributeError" ≠
      PipeOut.err "Input file must be a GeoJSON Feature or FeatureCollection" :=
  ⟨rfl, rfl, by simp⟩

/-- Claim C4 as amended: for every parsed JSON OBJECT document the dispatch
returns `[document]` when its type is "Feature", returns its `features`
entry (default the empty sequence) when its type is "FeatureCollection",
and rejects any other or missing type with the unsupported-type error —
identically on the fetch and upload paths, whose source lines are
character-identical and are embedded by the one function
`normalize_features`; a non-object document instead raises an uncaught
AttributeError.  The unsupported-type rejection is a hard error response on
both paths (no partial output). -/
theorem C4_amended_dispatch_on_objects (kvs : List (String × Json)) :
    (jlookup kvs "type" = some (.str "Feature") →
      normalize_features (.obj kvs) = .ok (.arr [.obj kvs])) ∧
    (jlookup kvs "type" = some (.str "FeatureCollection") →
      normalize_features (.obj kvs) = .ok ((jlookup kvs "features").getD (.arr []))) ∧
    (∀ v, jlookup kvs "type" = some v → v ≠ .str "Feature" →
      v ≠ .str "FeatureCollection" → normalize_features (.obj kvs) = .unsupported) ∧
    (jlookup kvs "type" = none → normalize_features (.obj kvs) = .unsupported) ∧
    (∀ j tax tid, truthy j = true → normalize_features j = .unsupported →
      fetch_after_resolve (GeomOutcome.parsed j) tax tid =
        .err "GeoJSON data is not a Feature or FeatureCollection" ∧
      upload_file tax (.parsed j) =
        .err "Input file must be a GeoJSON Feature or FeatureCollection") := by
  refine ⟨?_, ?_, ?_, ?_, ?_⟩
  · intro h1
    dsimp only [normalize_features]
    rw [h1]
    exact rfl
  · intro h1
    dsimp only [normalize_features]
    rw [h1]
    exact rfl
  · intro v h1 hF hFC
    dsimp only [normalize_features]
    rw [h1]
    split
    · next heq => cases heq; exact absurd rfl hF
    · next heq => cases heq; exact absurd rfl hFC
    · rfl
  · intro h1
    dsimp only [normalize_features]
    rw [h1]
  · intro j tax tid ht hn
    constructor
    · dsimp only [fetch_after_resolve, fetch_geojson]
      rw [hn]
      simp [ht]
    · dsimp only [upload_file]
      rw [hn]

/-- Claim C4 witness: the dispatch at concrete Feature, FeatureCollection,
unsupported-type and missing-type objects, and the fetch-path rejection of
an unsupported type. -/
theorem C4_witness :
    normalize_features (.obj [("type", .str "Feature")])
      = .ok (.arr [.obj [("type", .str "Feature")]]) ∧
    normalize_features (.obj [("type", .str "FeatureCollection")]) = .ok (.arr []) ∧
    normalize_features (.obj [("type", .str "Point")]) = .unsupported ∧
    normalize_features (.obj [("name", .str "x")]) = .unsupported ∧
    fetch_after_resolve (GeomOutcome.parsed (.obj [("type", .str "Point")]))
        TaxOutcome.notOk "18808"
      = .err "GeoJSON data is not a Feature or FeatureCollection" :=
  ⟨(C4_amended_dispatch_on_objects _).1 rfl,
   (C4_amended_dispatch_on_objects _).2.1 rfl,
   (C4_amended_dispatch_on_objects _).2.2.1 (.str "Point") rfl (by simp) (by simp),
   (C4_amended_dispatch_on_objects _).2.2.2.1 rfl,
   ((C4_amended_dispatch_on_objects []).2.2.2.2 (.obj [("type", .str "Point")])
      TaxOutcome.notOk "18808" rfl rfl).1⟩

/-- Claim C5: species-name resolution is first-success-wins: a successful
taxa-API lookup whose first result has a non-empty `name` wins; otherwise
the first feature's `properties.name` when present (even when falsy);
otherwise the literal "Unknown"; and a network or parse failure of the
lookup is swallowed (`api_species_value` maps it to the Python `None`), so
both handlers respond exactly as if the lookup had returned no result. -/
theorem C5_species_resolution_order :
    (∀ (rk fk : List (String × Json)) (res : Json) (nm : String),
      jlookup rk "results" = some res → truthy res = true →
      idx0? res = some (.obj fk) → jlookup fk "name" = some (.str nm) → nm ≠ "" →
      api_species_value (.body (.obj rk)) = .str nm ∧
      ∀ f, resolve_species (.str nm) f = some (.str nm)) ∧
    (api_species_value .raises = .null ∧ api_species_value .notOk = .null) ∧
    (∀ (api : Json) (ff pk : List (String × Json)) (v : Json), truthy api = false →
      jlookup ff "properties" = some (.obj pk) → jlookup pk "name" = some v →
      resolve_species api (.obj ff) = some v) ∧
    (∀ (api : Json) (ff pk : List (String × Json)), truthy api = false →
      jlookup ff "properties" = some (.obj pk) → jlookup pk "name" = none →
      resolve_species api (.obj ff) = some (.str "Unknown")) ∧
    (∀ (api : Json) (ff : List (String × Json)), truthy api = false →
      jlookup ff "properties" = none →
      resolve_species api (.obj ff) = some (.str "Unknown")) ∧
    (∀ wd geom raw, fetch_by_id wd geom TaxOutcome.raises raw
        = fetch_by_id wd geom TaxOutcome.notOk raw) ∧
    (∀ inp, upload_file TaxOutcome.raises inp = upload_file TaxOutcome.notOk inp) := by
  refine ⟨?_, ⟨rfl, rfl⟩, ?_, ?_, ?_, ?_, ?_⟩
  · intro rk fk res nm h1 h2 h3 h4 h5
    have ha : api_species_value (.body (.obj rk)) = .str nm := by
      dsimp only [api_species_value]
      rw [h1]
      simp only [Option.getD_some, h2, if_true, h3, h4]
    refine ⟨ha, fun f => ?_⟩
    have ht : truthy (.str nm) = true := by
      have : nm.isEmpty = false :=
        Bool.eq_false_iff.mpr (fun hh => h5 ((String.isEmpty_iff nm).mp hh))
      simp [truthy, this]
    simp [resolve_species, ht]
  · intro api ff pk v h1 h2 h3
    simp [resolve_species, h1, pyGet, h2, h3]
  · intro api ff pk h1 h2 h3
    simp [resolve_species, h1, pyGet, h2, h3]
  · intro api ff h1 h2
    simp [resolve_species, h1, pyGet, h2, jlookup]
  · intro wd geom raw
    exact fbi_tax_cong rfl
  · intro inp
    exact ufl_tax_cong rfl

/-- Claim C5 witness: a winning API name, the properties fallback, the
"Unknown" fallbacks, and the fetch handler's indifference between a raised
and an empty-handed metadata lookup, all at concrete inputs. -/
theorem C5_witness :
    api_species_value (.body (.obj [("results", .arr [.obj [("name", .str "Sturnella")]])]))
      = .str "Sturnella" ∧
    resolve_species .null (.obj [("properties", .obj [("name", .str "Alpha")])])
      = some (.str "Alpha") ∧
    resolve_species .null (.obj [("properties", .obj [])]) = some (.str "Unknown") ∧
    resolve_species .null (.obj []) = some (.str "Unknown") ∧
    fetch_by_id (fun _ => WdOutcome.vals ["18808"]) GeomOutcome.notOk TaxOutcome.raises
        "18808"
      = fetch_by_id (fun _ => WdOutcome.vals ["18808"]) GeomOutcome.notOk TaxOutcome.notOk
        "18808" :=
  ⟨(C5_species_resolution_order.1 [("results", .arr [.obj [("name", .str "Sturnella")]])]
      [("name", .str "Sturnella")] (.arr [.obj [("name", .str "Sturnella")]])
      "Sturnella" rfl rfl rfl rfl (by decide)).1,
   C5_species_resolution_order.2.2.1 .null [("properties", .obj [("name", .str "Alpha")])]
      [("name", .str "Alpha")] (.str "Alpha") rfl rfl rfl,
   C5_species_resolution_order.2.2.2.1 .null [("properties", .obj [])] [] rfl rfl rfl,
   C5_species_resolution_order.2.2.2.2.1 .null [] rfl rfl,
   C5_species_resolution_order.2.2.2.2.2.1 (fun _ => WdOutcome.vals ["18808"])
      GeomOutcome.notOk "18808"⟩

/-- Claim C6: every built document has `sources` equal to exactly two URL
strings joined by a comma (and space), with the second URL embedding the
taxon id, and `zoom` equal to the constant 5; every fetch-path page embeds
the resolved native id, and every upload-path page embeds the rendering of
some extracted taxon id value, which is the id itself when truthy and the
literal fallback "18808" otherwise. -/
theorem C6_sources_and_zoom :
    (∀ (species tid : String) (lat lon fs : Json),
      (build_doc species tid lat lon fs).sources =
        "https://www.inaturalist.org/pages/range_maps" ++ ", " ++
        "https://www.inaturalist.org/geo_model/" ++ tid ++ "/explain" ∧
      (build_doc species tid lat lon fs).zoom = 5) ∧
    (∀ t : Json, truthy t = true → upload_taxon_render t = pyStr t) ∧
    (∀ t : Json, truthy t = false → upload_taxon_render t = "18808") ∧
    (∀ tax tid fs doc link, fetch_with_features tax tid fs = .page doc link →
      doc.sources = sources_string tid ∧ doc.zoom = 5) ∧
    (∀ tax fs doc link, upload_with_features tax fs = .page doc link →
      ∃ t, doc.sources = sources_string (upload_taxon_render t) ∧ doc.zoom = 5) := by
  refine ⟨fun _ _ _ _ _ => ⟨rfl, rfl⟩, ?_, ?_, ?_, ?_⟩
  · intro t ht
    simp [upload_taxon_render, ht]
  · intro t ht
    simp [upload_taxon_render, ht]
  · intro tax tid fs doc link h
    obtain ⟨s, lat, lon, hd⟩ := fwf_page h
    rw [hd]
    exact ⟨rfl, rfl⟩
  · intro tax fs doc link h
    obtain ⟨s, t, lat, lon, hd⟩ := uwf_page h
    rw [hd]
    exact ⟨t, rfl, rfl⟩

/-- Claim C6 witness: the rendered taxon id at a truthy and at a null
value, and the sources/zoom of concrete fetch-path and upload-path pages. -/
theorem C6_witness :
    upload_taxon_render (.str "5") = pyStr (.str "5") ∧
    upload_taxon_render .null = "18808" ∧
    (build_doc "Unknown" "18808" (.num 0) (.num 0) (.arr [])).sources
        = sources_string "18808" ∧
    (build_doc "Unknown" "18808" (.num 0) (.num 0) (.arr [])).zoom = 5 ∧
    (∃ t, (build_doc "Unknown" (upload_taxon_render .null) (.num 0) (.num 0)
        (.arr [])).sources = sources_string (upload_taxon_render t) ∧
      (build_doc "Unknown" (upload_taxon_render .null) (.num 0) (.num 0)
        (.arr [])).zoom = 5) :=
  ⟨C6_sources_and_zoom.2.1 (.str "5") rfl,
   C6_sources_and_zoom.2.2.1 .null rfl,
   (C6_sources_and_zoom.2.2.2.1 TaxOutcome.notOk "18808" (.arr [])
      (build_doc "Unknown" "18808" (.num 0) (.num 0) (.arr []))
      (commons_link ("Unknown".replace " " "_")) rfl).1,
   (C6_sources_and_zoom.2.2.2.1 TaxOutcome.notOk "18808" (.arr [])
      (build_doc "Unknown" "18808" (.num 0) (.num 0) (.arr []))
      (commons_link ("Unknown".replace " " "_")) rfl).2,
   C6_sources_and_zoom.2.2.2.2 TaxOutcome.notOk (.arr [])
      (build_doc "Unknown" (upload_taxon_render .null) (.num 0) (.num 0) (.arr []))
      (commons_link ("Unknown".replace " " "_")) rfl⟩

/-- Claim C7: every successful conversion's document carries
data.type = "FeatureCollection" and data.features exactly equal to the
normalized feature sequence, element for element: the builder only
re-wraps.  Stated for the two feature-stage functions and lifted to both
full handlers. -/
theorem C7_data_wraps_normalized_features :
    (∀ tax tid fs doc link, fetch_with_features tax tid fs = .page doc link →
      doc.data_type = "FeatureCollection" ∧ doc.data_features = fs) ∧
    (∀ tax fs doc link, upload_with_features tax fs = .page doc link →
      doc.data_type = "FeatureCollection" ∧ doc.data_features = fs) ∧
    (∀ wd geom tax raw doc link, fetch_by_id wd geom tax raw = .page doc link →
      ∃ gj fs, fetch_geojson geom = .ok gj ∧ normalize_features gj = .ok fs ∧
        doc.data_type = "FeatureCollection" ∧ doc.data_features = fs) ∧
    (∀ tax inp doc link, upload_file tax inp = .page doc link →
      ∃ j fs, inp = .parsed j ∧ normalize_features j = .ok fs ∧
        doc.data_type = "FeatureCollection" ∧ doc.data_features = fs) := by
  refine ⟨?_, ?_, ?_, ?_⟩
  · intro tax tid fs doc link h
    obtain ⟨s, lat, lon, hd⟩ := fwf_page h
    rw [hd]
    exact ⟨rfl, rfl⟩
  · intro tax fs doc link h
    obtain ⟨s, t, lat, lon, hd⟩ := uwf_page h
    rw [hd]
    exact ⟨rfl, rfl⟩
  · intro wd geom tax raw doc link h
    obtain ⟨tid, h2⟩ := fbi_page h
    obtain ⟨gj, hg, _, fs, hn, h3⟩ := far_page h2
    obtain ⟨s, lat, lon, hd⟩ := fwf_page h3
    rw [hd]
    exact ⟨gj, fs, hg, hn, rfl, rfl⟩
  · intro tax inp doc link h
    obtain ⟨j, hj, fs, hn, h2⟩ := ufl_page h
    obtain ⟨s, t, lat, lon, hd⟩ := uwf_page h2
    rw [hd]
    exact ⟨j, fs, hj, hn, rfl, rfl⟩

/-- Claim C7 witness: concrete pages on both paths wrap the untouched
normalized feature sequence. -/
theorem C7_witness :
    ((build_doc "Unknown" "18808" (.num 0) (.num 0) (.arr [])).data_type
        = "FeatureCollection" ∧
     (build_doc "Unknown" "18808" (.num 0) (.num 0) (.arr [])).data_features
        = .arr []) ∧
    (∃ j fs, UploadInput.parsed (.obj [("type", .str "FeatureCollection")])
        = UploadInput.parsed j ∧ normalize_features j = .ok fs ∧
      (build_doc "Unknown" "18808" (.num 0) (.num 0) (.arr [])).data_type
        = "FeatureCollection" ∧
      (build_doc "Unknown" "18808" (.num 0) (.num 0) (.arr [])).data_features = fs) :=
  ⟨C7_data_wraps_normalized_features.1 TaxOutcome.notOk "18808" (.arr [])
      (build_doc "Unknown" "18808" (.num 0) (.num 0) (.arr []))
      (commons_link ("Unknown".replace " " "_")) rfl,
   C7_data_wraps_normalized_features.2.2.2 TaxOutcome.notOk
      (UploadInput.parsed (.obj [("type", .str "FeatureCollection")]))
      (build_doc "Unknown" "18808" (.num 0) (.num 0) (.arr []))
      (commons_link ("Unknown".replace " " "_")) rfl⟩

/-- Claim C8: an input normalizing to the empty feature sequence still
converts successfully on both paths, and the output document has latitude
and longitude 0.0, the species name "Unknown" in all four description
templates, and empty data.features (on the fetch path shown for the native
identifier "18808", whose sources id coincides with the upload fallback). -/
theorem C8_empty_features_defaults (tax : TaxOutcome) (wd : String → WdOutcome)
    (kvs : List (String × Json))
    (h1 : jlookup kvs "type" = some (.str "FeatureCollection"))
    (h2 : jlookup kvs "features" = some (.arr [])) :
    upload_file tax (.parsed (.obj kvs)) =
      .page (build_doc "Unknown" "18808" (.num 0) (.num 0) (.arr []))
        (commons_link ("Unknown".replace " " "_")) ∧
    fetch_by_id wd (.parsed (.obj kvs)) tax "18808" =
      .page (build_doc "Unknown" "18808" (.num 0) (.num 0) (.arr []))
        (commons_link ("Unknown".replace " " "_")) ∧
    (build_doc "Unknown" "18808" (.num 0) (.num 0) (.arr [])).latitude = .num 0 ∧
    (build_doc "Unknown" "18808" (.num 0) (.num 0) (.arr [])).longitude = .num 0 ∧
    (build_doc "Unknown" "18808" (.num 0) (.num 0) (.arr [])).desc_en
      = "Distribution map of " ++ "Unknown" ∧
    (build_doc "Unknown" "18808" (.num 0) (.num 0) (.arr [])).desc_de
      = "Verbreitungskarte von " ++ "Unknown" ∧
    (build_doc "Unknown" "18808" (.num 0) (.num 0) (.arr [])).desc_ja
      = "Unknown" ++ " の分布図" ∧
    (build_doc "Unknown" "18808" (.num 0) (.num 0) (.arr [])).desc_zh
      = "Unknown" ++ " 分布图" ∧
    (build_doc "Unknown" "18808" (.num 0) (.num 0) (.arr [])).data_features
      = .arr [] := by
  have hn : normalize_features (.obj kvs) = .ok (.arr []) := by
    dsimp only [normalize_features]
    rw [h1, h2]
    exact rfl
  have ht := truthy_obj_of_jlookup h1
  refine ⟨?_, ?_, rfl, rfl, rfl, rfl, rfl, rfl, rfl⟩
  · dsimp only [upload_file]
    rw [hn]
    exact rfl
  · have hstep : fetch_by_id wd (.parsed (.obj kvs)) tax "18808"
        = fetch_after_resolve (.parsed (.obj kvs)) tax "18808" := rfl
    rw [hstep]
    dsimp only [fetch_after_resolve, fetch_geojson]
    rw [if_neg (by simp [ht]), hn]
    exact rfl

/-- Claim C8 witness at the concrete empty FeatureCollection. -/
theorem C8_witness :
    upload_file TaxOutcome.notOk
      (.parsed (.obj [("type", .str "FeatureCollection"), ("features", .arr [])])) =
      .page (build_doc "Unknown" "18808" (.num 0) (.num 0) (.arr []))
        (commons_link ("Unknown".replace " " "_")) ∧
    fetch_by_id (fun _ => WdOutcome.raises "unreached")
      (.parsed (.obj [("type", .str "FeatureCollection"), ("features", .arr [])]))
      TaxOutcome.notOk "18808" =
      .page (build_doc "Unknown" "18808" (.num 0) (.num 0) (.arr []))
        (commons_link ("Unknown".replace " " "_")) :=
  ⟨(C8_empty_features_defaults TaxOutcome.notOk (fun _ => WdOutcome.raises "unreached")
      [("type", .str "FeatureCollection"), ("features", .arr [])] rfl rfl).1,
   (C8_empty_features_defaults TaxOutcome.notOk (fun _ => WdOutcome.raises "unreached")
      [("type", .str "FeatureCollection"), ("features", .arr [])] rfl rfl).2.1⟩

/-- Claim C9: on the fetch path a geometry-store response that parses to a
falsy JSON value is indistinguishable from an unparseable body — the
handler responds identically — and in particular a parsed empty object
yields the fetch error (never reaching the type dispatch), not the
unsupported-type error. -/
theorem C9_falsy_geometry_rejected (wd : String → WdOutcome) (tax : TaxOutcome)
    (raw : String) (j : Json) (h : truthy j = false) :
    fetch_by_id wd (.parsed j) tax raw = fetch_by_id wd GeomOutcome.badBody tax raw ∧
    fetch_by_id wd (.parsed (.obj [])) tax "18808" =
      .err "Failed to fetch or parse GeoJSON data for the given taxon id" := by
  constructor
  · refine fbi_geom_cong (fun tid => ?_)
    rw [far_falsy h]
    exact rfl
  · exact rfl

/-- Claim C9 witness at the parsed empty object. -/
theorem C9_witness :
    fetch_by_id (fun _ => WdOutcome.raises "unreached") (.parsed (.obj []))
        TaxOutcome.notOk "18808"
      = fetch_by_id (fun _ => WdOutcome.raises "unreached") GeomOutcome.badBody
        TaxOutcome.notOk "18808" ∧
    fetch_by_id (fun _ => WdOutcome.raises "unreached") (.parsed (.obj []))
        TaxOutcome.notOk "18808"
      = .err "Failed to fetch or parse GeoJSON data for the given taxon id" :=
  ⟨(C9_falsy_geometry_rejected (fun _ => WdOutcome.raises "unreached") TaxOutcome.notOk
      "18808" (.obj []) rfl).1,
   (C9_falsy_geometry_rejected (fun _ => WdOutcome.raises "unreached") TaxOutcome.notOk
      "18808" (.obj []) rfl).2⟩

/-- Claim C10: when the (stripped) identifier is detected as a QID
(case-insensitively), the whole identifier is uppercased before the
identifier-lookup collaborator is consulted — the handler's response
depends on the collaborator only through its value at the uppercased
identifier, and the lowercase "q18808" is resolved exactly as a query for
"Q18808" — while a non-QID identifier is passed through verbatim to the
geometry stage. -/
theorem C10_qid_uppercased (s : String) (wd wd2 : String → WdOutcome)
    (geom : GeomOutcome) (tax : TaxOutcome) :
    (py_startswith (py_upper (py_strip s)) "Q" = true →
      wd (py_upper (py_strip s)) = wd2 (py_upper (py_strip s)) →
      fetch_by_id wd geom tax s = fetch_by_id wd2 geom tax s) ∧
    (py_startswith (py_upper (py_strip s)) "Q" = false → py_strip s ≠ "" →
      fetch_by_id wd geom tax s = fetch_after_resolve geom tax (py_strip s)) ∧
    (fetch_by_id (fun q => if q = "Q18808" then WdOutcome.vals ["18808"]
        else WdOutcome.raises "unreached") geom tax "q18808"
      = fetch_after_resolve geom tax "18808") := by
  refine ⟨?_, ?_, rfl⟩
  · intro hQ hwd
    unfold fetch_by_id
    by_cases he : py_strip s = ""
    · rw [he] at hQ
      exact absurd hQ (by decide)
    · rw [if_neg he, if_neg he, if_pos hQ, if_pos hQ]
      unfold get_inat_id_from_wikidata
      rw [hwd]
  · intro hQ hne
    unfold fetch_by_id
    rw [if_neg hne, if_neg (by simp [hQ])]

/-- Claim C10 witness: the lowercase QID query and the verbatim non-QID
pass-through at concrete identifiers. -/
theorem C10_witness :
    fetch_by_id (fun _ => WdOutcome.vals ["18808"]) GeomOutcome.notOk TaxOutcome.notOk
        "q18808"
      = fetch_by_id (fun q => if q = "Q18808" then WdOutcome.vals ["18808"]
          else WdOutcome.raises "unreached") GeomOutcome.notOk TaxOutcome.notOk
        "q18808" ∧
    fetch_by_id (fun _ => WdOutcome.raises "unreached") GeomOutcome.notOk TaxOutcome.notOk
        "18808"
      = fetch_after_resolve GeomOutcome.notOk TaxOutcome.notOk "18808" :=
  ⟨(C10_qid_uppercased "q18808" (fun _ => WdOutcome.vals ["18808"])
      (fun q => if q = "Q18808" then WdOutcome.vals ["18808"]
        else WdOutcome.raises "unreached") GeomOutcome.notOk TaxOutcome.notOk).1
      (by decide) rfl,
   (C10_qid_uppercased "18808" (fun _ => WdOutcome.raises "unreached")
      (fun _ => WdOutcome.raises "unreached") GeomOutcome.notOk TaxOutcome.notOk).2.1
      (by decide) (by decide)⟩
